import Mathlib

/-!
# Verification of the MCCI Catena SHT3x driver core

Shallow embedding of `src/src/lib/Catena-SHT3x.cpp` (class `cSHT_3x` in
namespace `McciCatenaSht3x`): the table-driven CRC-8 integrity checker,
response decoding, measurement orchestration and the low-level bus helpers.
Machine bytes are `Nat` values below 256, with `% 256` applied exactly where
the C++ `uint8_t` truncation happens.  The two-wire bus is modelled by
explicit oracle parameters: the boolean outcome of each `writeCommand` call,
an `Option` holding the bytes a `readResponse` call delivers (`none` for a
short read), and a trace of the bus operations performed.

Declarations that live in the header `Catena-SHT3x.h`, which is not part of
the sources (only the `.cpp` is), are modelled from the specification and
carry a doc comment starting `Modelled from the spec:`.
-/

namespace cSHT_3x

/-- The fixed 16-entry nibble substitution table from `cSHT_3x::crc`. -/
def crcTable : List Nat :=
  [0x00, 0x31, 0x62, 0x53, 0xc4, 0xf5, 0xa6, 0x97,
   0xb9, 0x88, 0xdb, 0xea, 0x7d, 0x4c, 0x1f, 0x2e]

/-- Second half of one loop iteration of `cSHT_3x::crc`: substitute the low
nibble, `p = ((crc8 >> 4) ^ b) & 0xF; crc8 = (crc8 << 4) ^ crcTable[p]`,
with the `uint8_t` truncation written as `% 256`. -/
def crcStep2 (crc8 b : Nat) : Nat :=
  ((crc8 <<< 4) ^^^ crcTable.getD (((crc8 >>> 4) ^^^ b) &&& 0xF) 0) % 256

/-- One full loop iteration of `cSHT_3x::crc` over a single byte `b`:
first nibble `p = (b ^ crc8) >> 4; crc8 = (crc8 << 4) ^ crcTable[p]`,
then the second nibble via `crcStep2`. -/
def crcStep (crc8 b : Nat) : Nat :=
  crcStep2 (((crc8 <<< 4) ^^^ crcTable.getD ((b ^^^ crc8) >>> 4) 0) % 256) b

/-- `cSHT_3x::crc(buf, nBuf, crc8)`: fold the per-byte update over the
buffer (the list length plays the role of `nBuf`). -/
def crc (buf : List Nat) (crc8 : Nat) : Nat :=
  buf.foldl crcStep crc8

/-- One shift-reduce round of the reference bitwise CRC-8 with polynomial
0x31, MSB first: shift left one bit and, when the bit shifted out was set,
reduce by the polynomial. -/
def refShift (c : Nat) : Nat :=
  if c &&& 0x80 = 0 then (c <<< 1) % 256 else ((c <<< 1) ^^^ 0x31) % 256

/-- Reference bitwise CRC-8 update for one byte: XOR the byte into the
running value, then eight shift-reduce rounds. -/
def refCrcStep (c b : Nat) : Nat :=
  refShift^[8] (c ^^^ b)

/-- Reference bitwise CRC-8 (polynomial 0x31) over a byte list from a given
initial running value. -/
def refCrc (buf : List Nat) (c : Nat) : Nat :=
  buf.foldl refCrcStep c

/-- Modelled from the spec: the enumerated precision class.  The header
`Catena-SHT3x.h` declaring this enumeration is not part of the sources; the
spec lists Low, Medium and High, and the `.cpp` branch printing
"Illegal repeatability" shows that repeatability values outside the mapped
set exist, modelled here by the `NA` constructor. -/
inductive Repeatability where
  | NA : Repeatability
  | Low : Repeatability
  | Medium : Repeatability
  | High : Repeatability
deriving DecidableEq

/-- Modelled from the spec: whether the device may stall the bus during a
measurement. -/
inductive ClockStretching where
  | Disabled : ClockStretching
  | Enabled : ClockStretching
deriving DecidableEq

/-- Modelled from the spec: measurement rate classes (0.5, 1, 2, 4, 10
measurements per second) plus `Single` (non-periodic) and `PNone`
(invalid). -/
inductive Periodicity where
  | PNone : Periodicity
  | Single : Periodicity
  | HzHalf : Periodicity
  | HzOne : Periodicity
  | HzTwo : Periodicity
  | HzFour : Periodicity
  | HzTen : Periodicity
deriving DecidableEq

/-- Modelled from the spec: the enumerated 16-bit command opcodes —
`SoftReset`, `GetStatus`, `Break`, `Fetch`, a single-shot matrix indexed by
(Repeatability × ClockStretching), a periodic-start matrix indexed by
(Repeatability × Periodicity), and the distinguished `Error` sentinel for
invalid combinations. -/
inductive Command where
  | Error : Command
  | SoftReset : Command
  | GetStatus : Command
  | Break : Command
  | Fetch : Command
  | SingleShot : Repeatability → ClockStretching → Command
  | PeriodicStart : Repeatability → Periodicity → Command
deriving DecidableEq

/-- Modelled from the spec: the 16-bit opcode carried by each command.
The spec calls the exact values device-specific constants and illustrative;
the values used here follow the sensor datasheet.  Unmapped combinations
share the `Error` opcode 0. -/
def commandBits : Command → Nat
  | .Error => 0
  | .SoftReset => 0x30A2
  | .GetStatus => 0xF32D
  | .Break => 0x3093
  | .Fetch => 0xE000
  | .SingleShot .High .Enabled => 0x2C06
  | .SingleShot .Medium .Enabled => 0x2C0D
  | .SingleShot .Low .Enabled => 0x2C10
  | .SingleShot .High .Disabled => 0x2400
  | .SingleShot .Medium .Disabled => 0x240B
  | .SingleShot .Low .Disabled => 0x2416
  | .SingleShot .NA _ => 0
  | .PeriodicStart .High .HzHalf => 0x2032
  | .PeriodicStart .Medium .HzHalf => 0x2024
  | .PeriodicStart .Low .HzHalf => 0x202F
  | .PeriodicStart .High .HzOne => 0x2130
  | .PeriodicStart .Medium .HzOne => 0x2126
  | .PeriodicStart .Low .HzOne => 0x212D
  | .PeriodicStart .High .HzTwo => 0x2236
  | .PeriodicStart .Medium .HzTwo => 0x2220
  | .PeriodicStart .Low .HzTwo => 0x222B
  | .PeriodicStart .High .HzFour => 0x2334
  | .PeriodicStart .Medium .HzFour => 0x2322
  | .PeriodicStart .Low .HzFour => 0x2329
  | .PeriodicStart .High .HzTen => 0x2737
  | .PeriodicStart .Medium .HzTen => 0x2721
  | .PeriodicStart .Low .HzTen => 0x272A
  | .PeriodicStart _ _ => 0

/-- Modelled from the spec: `getCommand(periodicity, repeatability,
clockStretching)` looks the opcode up in the single-shot matrix for
`Periodicity::Single` and in the periodic-start matrix for periodic rates,
returning the `Error` sentinel for every unmapped combination (an
unmapped repeatability, or the invalid periodicity). -/
def getCommand (p : Periodicity) (r : Repeatability) (cs : ClockStretching) : Command :=
  match p, r with
  | _, .NA => Command.Error
  | .PNone, _ => Command.Error
  | .Single, r => Command.SingleShot r cs
  | p, r => Command.PeriodicStart r p

/-- Modelled from the spec: the periodicity of a command; any non-periodic
command maps to a periodicity whose millisecond interval is 0 (the comment
in `startPeriodicMeasurement` relies on this). -/
def getPeriodicity : Command → Periodicity
  | .PeriodicStart _ p => p
  | _ => Periodicity.PNone

/-- Modelled from the spec: fixed lookup from a measurement rate class to
the millisecond inter-measurement interval, 0 for `Single` and for
invalid values. -/
def PeriodicityToMillis : Periodicity → Nat
  | .PNone => 0
  | .Single => 0
  | .HzHalf => 2000
  | .HzOne => 1000
  | .HzTwo => 500
  | .HzFour => 250
  | .HzTen => 100

/-- Modelled from the spec: the validity-tagged 16-bit status word.
`Status_t.invalid` is the explicitly-invalid value built by the default
constructor `Status_t()`; `Status_t.valid w` is the value built from a
decoded word `w`. -/
inductive Status_t where
  | invalid : Status_t
  | valid : Nat → Status_t
deriving DecidableEq

/-- Modelled from the spec: the validity accessor of `Status_t`. -/
def Status_t.isValid : Status_t → Bool
  | .invalid => false
  | .valid _ => true

/-- Modelled from the spec: a float output slot; the driver stores either a
converted value (exact rational arithmetic stands in for IEEE floats, whose
rounding is irrelevant to the claims) or the not-a-number sentinel `NAN`. -/
inductive FloatVal where
  | nan : FloatVal
  | val : ℚ → FloatVal
deriving DecidableEq

/-- Modelled from the spec: `rawTtoCelsius(frac) = -45 + 175 * frac / 65535`
(defined in the missing header; exact rational arithmetic stands in for
`float`). -/
def rawTtoCelsius (frac : Nat) : ℚ :=
  -45 + 175 * frac / 65535

/-- Modelled from the spec: `rawRHtoPercent(frac) = 100 * frac / 65535`
(defined in the missing header; exact rational arithmetic stands in for
`float`). -/
def rawRHtoPercent (frac : Nat) : ℚ :=
  100 * frac / 65535

/-- A 3-byte status response buffer. -/
structure Buf3 where
  b0 : Nat
  b1 : Nat
  b2 : Nat
deriving DecidableEq

/-- A 6-byte measurement response buffer. -/
structure Buf6 where
  b0 : Nat
  b1 : Nat
  b2 : Nat
  b3 : Nat
  b4 : Nat
  b5 : Nat
deriving DecidableEq

/-- One low-level wire operation, as issued by `writeCommand` /
`readResponse`: begin a write transaction to an address, send one byte, end
the transaction, request `n` bytes from an address, or read one received
byte. -/
inductive WireEvent where
  | beginTx : Int → WireEvent
  | writeByte : Nat → WireEvent
  | endTx : WireEvent
  | requestFrom : Int → Nat → WireEvent
  | readByte : WireEvent
deriving DecidableEq

/-- One driver-level bus interaction performed by the measurement paths:
a `writeCommand` call, a millisecond delay, or a `readResponse` call for
`n` bytes. -/
inductive BusEvent where
  | write : Command → BusEvent
  | delayMs : Nat → BusEvent
  | read : Nat → BusEvent
deriving DecidableEq

/-- `cSHT_3x::writeCommand(c)`: refuse a negative device address before
touching the bus; otherwise begin a transaction, send the opcode high byte
then low byte, end the transaction, and succeed exactly when the
end-of-transaction status `endResult` is 0.  Returns the boolean result
and the trace of wire operations performed. -/
def writeCommand (addr : Int) (c : Command) (endResult : Nat) : Bool × List WireEvent :=
  if addr < 0 then (false, [])
  else
    let evs := [WireEvent.beginTx addr, WireEvent.writeByte (commandBits c >>> 8),
                WireEvent.writeByte (commandBits c &&& 0xFF), WireEvent.endTx]
    if endResult ≠ 0 then (false, evs) else (true, evs)

/-- `cSHT_3x::readResponse(buf, nBuf)`: refuse a null buffer, a request
longer than 32 bytes, or a negative address before issuing any bus
request; otherwise request `nBuf` bytes, drain the `nAvail` bytes the wire
makes available, and succeed exactly when `nAvail = nBuf` (the
`nReadFrom` count returned by the request is only inspected for debug
logging).  Returns the boolean result and the trace of wire operations. -/
def readResponse (addr : Int) (bufNull : Bool) (nBuf : Nat)
    (nReadFrom : Nat) (nAvail : Nat) : Bool × List WireEvent :=
  if bufNull = true ∨ nBuf > 32 ∨ addr < 0 then (false, [])
  else (decide (nAvail = nBuf),
        WireEvent.requestFrom addr nBuf :: List.replicate nAvail WireEvent.readByte)

/-- `cSHT_3x::processResultsRaw(buf, tfrac, rhfrac)`: decode the big-endian
temperature fraction from bytes 0–1 and the humidity fraction from bytes
3–4 into the output parameters, then — unless `m_noCrc` is set — fail when
either transmitted checksum byte (byte 2, byte 5) differs from the CRC of
its 2-byte group.  Returns the boolean result and the final values of the
two output parameters. -/
def processResultsRaw (noCrc : Bool) (buf : Buf6) : Bool × Nat × Nat :=
  let tfrac := (buf.b0 <<< 8) ||| buf.b1
  let rhfrac := (buf.b3 <<< 8) ||| buf.b4
  if noCrc = false ∧ (crc [buf.b0, buf.b1] 0xFF ≠ buf.b2 ∨ crc [buf.b3, buf.b4] 0xFF ≠ buf.b5)
  then (false, tfrac, rhfrac)
  else (true, tfrac, rhfrac)

/-- `cSHT_3x::getStatus()`: write `GetStatus` (outcome `writeOk`), read a
3-byte response (`readOut` is `some buf` on success, `none` on failure),
check the CRC of the first two bytes against the third unless `m_noCrc` is
set, and decode the big-endian word into a valid `Status_t`; any failure
yields the explicitly-invalid `Status_t()`. -/
def getStatus (writeOk : Bool) (readOut : Option Buf3) (noCrc : Bool) : Status_t :=
  match writeOk, readOut with
  | true, some buf =>
      if noCrc = false ∧ crc [buf.b0, buf.b1] 0xFF ≠ buf.b2 then Status_t.invalid
      else Status_t.valid ((buf.b0 <<< 8) ||| buf.b1)
  | _, _ => Status_t.invalid

/-- Result of a raw measurement path: the boolean outcome, the final values
of the two 16-bit output parameters, and the trace of bus interactions. -/
structure RawResult where
  ok : Bool
  tfrac : Nat
  rhfrac : Nat
  trace : List BusEvent
deriving DecidableEq

/-- `cSHT_3x::getTemperatureHumidityRaw(t, rh, r)`: encode the single-shot
command for repeatability `r` with clock stretching disabled; fail without
any bus interaction when the encoding is the `Error` sentinel.  Otherwise
write the command (outcome `writeOk`), delay 20 ms, read a 6-byte response
(`readOut`), and validate/decode it via `processResultsRaw`.  `t0`/`rh0`
are the callers' values of the by-reference output parameters, which stay
untouched on the paths that never reach `processResultsRaw`. -/
def getTemperatureHumidityRaw (r : Repeatability) (writeOk : Bool)
    (readOut : Option Buf6) (noCrc : Bool) (t0 rh0 : Nat) : RawResult :=
  let c := getCommand Periodicity.Single r ClockStretching.Disabled
  if c = Command.Error then ⟨false, t0, rh0, []⟩
  else if writeOk = false then ⟨false, t0, rh0, [BusEvent.write c]⟩
  else match readOut with
    | none => ⟨false, t0, rh0, [BusEvent.write c, BusEvent.delayMs 20, BusEvent.read 6]⟩
    | some buf =>
        let pr := processResultsRaw noCrc buf
        ⟨pr.1, pr.2.1, pr.2.2, [BusEvent.write c, BusEvent.delayMs 20, BusEvent.read 6]⟩

/-- `cSHT_3x::getTemperatureHumidity(t, rh, r)`: run the raw single-shot
path; on success convert the two fractions to Celsius / percent, on any
failure store the not-a-number sentinel in both outputs.  `t0`/`rh0` are
the callers' values of the by-reference float outputs, `tf0`/`rf0` the
(indeterminate) initial values of the local fraction variables. -/
def getTemperatureHumidity (t0 rh0 : FloatVal) (r : Repeatability) (writeOk : Bool)
    (readOut : Option Buf6) (noCrc : Bool) (tf0 rf0 : Nat) :
    Bool × FloatVal × FloatVal :=
  let raw := getTemperatureHumidityRaw r writeOk readOut noCrc tf0 rf0
  if raw.ok then
    (true, FloatVal.val (rawTtoCelsius raw.tfrac), FloatVal.val (rawRHtoPercent raw.rhfrac))
  else (false, FloatVal.nan, FloatVal.nan)

/-- `cSHT_3x::getPeriodicMeasurementRaw(tfrac, rhfrac)`: write `Fetch`
(outcome `writeOk`), read a 6-byte response (`readOut`), and
validate/decode it via `processResultsRaw`.  `tf0`/`rf0` are the callers'
values of the by-reference outputs. -/
def getPeriodicMeasurementRaw (writeOk : Bool) (readOut : Option Buf6) (noCrc : Bool)
    (tf0 rf0 : Nat) : Bool × Nat × Nat :=
  if writeOk = false then (false, tf0, rf0)
  else match readOut with
    | none => (false, tf0, rf0)
    | some buf =>
        let pr := processResultsRaw noCrc buf
        (pr.1, pr.2.1, pr.2.2)

/-- `cSHT_3x::getPeriodicMeasurement(t, rh)`: run the raw fetch path; on
failure return `false` immediately (the `if (! fResult) return false;`
path leaves the by-reference outputs `t0`/`rh0` untouched), on success
convert the two fractions.  `tf0`/`rf0` are the (indeterminate) initial
values of the local fraction variables. -/
def getPeriodicMeasurement (t0 rh0 : FloatVal) (writeOk : Bool) (readOut : Option Buf6)
    (noCrc : Bool) (tf0 rf0 : Nat) : Bool × FloatVal × FloatVal :=
  let raw := getPeriodicMeasurementRaw writeOk readOut noCrc tf0 rf0
  if raw.1 = false then (false, t0, rh0)
  else (true, FloatVal.val (rawTtoCelsius raw.2.1), FloatVal.val (rawRHtoPercent raw.2.2))

/-- `cSHT_3x::startPeriodicMeasurement(c)`: compute the inter-measurement
interval of the command's periodicity; return it unchanged (0) with no bus
write when it is 0.  Otherwise write `Break` (outcome `w1`) and then `c`
(outcome `w2`), returning 0 as soon as a write fails, and the interval when
both succeed.  The second component is the list of commands written. -/
def startPeriodicMeasurement (c : Command) (w1 w2 : Bool) : Nat × List Command :=
  let result := PeriodicityToMillis (getPeriodicity c)
  if result = 0 then (result, [])
  else if w1 = false then (0, [Command.Break])
  else if w2 = false then (0, [Command.Break, c])
  else (result, [Command.Break, c])

/-- Bit-level computation: the low-nibble table index computed by
`crcStep2` after the first-nibble update depends on the incoming running
value `c` and the data byte `b` only through `c ^^^ b`. -/
theorem lowNibble_index_eq (c b t : Nat) :
    ((((((c <<< 4) ^^^ t) % 256) >>> 4) ^^^ b) &&& 15) =
    ((((((c ^^^ b) <<< 4) ^^^ t) % 256) >>> 4) ^^^ 0) &&& 15 := by
  apply Nat.eq_of_testBit_eq
  intro i
  simp only [Nat.testBit_and, Nat.testBit_xor, Nat.testBit_shiftRight,
    show (256 : Nat) = 2 ^ 8 from rfl, Nat.testBit_mod_two_pow, Nat.testBit_shiftLeft,
    show (15 : Nat) = 2 ^ 4 - 1 from rfl, Nat.testBit_two_pow_sub_one, Nat.zero_testBit]
  rcases Nat.lt_or_ge i 4 with h | h
  · simp only [h, decide_True, Bool.true_and, show 4 + i - 4 = i from by omega,
      show 4 + i < 8 from by omega, show 4 + i ≥ 4 from by omega, Bool.xor_false]
    cases c.testBit i <;> cases b.testBit i <;> cases t.testBit (4 + i) <;> rfl
  · simp [show ¬ (i < 4) from by omega]

/-- Bit-level computation: once truncated to a byte, the shifted-left
running value that feeds the second substitution no longer depends on the
high nibble carried in from `c` (respectively `c ^^^ b`). -/
theorem highPart_eq (c b t T : Nat) :
    ((((c <<< 4) ^^^ t) % 256) <<< 4 ^^^ T) % 256 =
    (((((c ^^^ b) <<< 4) ^^^ t) % 256) <<< 4 ^^^ T) % 256 := by
  apply Nat.eq_of_testBit_eq
  intro i
  simp only [Nat.testBit_xor, show (256 : Nat) = 2 ^ 8 from rfl, Nat.testBit_mod_two_pow,
    Nat.testBit_shiftLeft]
  rcases Nat.lt_or_ge i 8 with h8 | h8
  · rcases Nat.lt_or_ge i 4 with h4 | h4
    · simp [show ¬ (i ≥ 4) from by omega]
    · simp only [show i ≥ 4 from h4, decide_True, Bool.true_and,
        show i - 4 < 8 from by omega, show ¬ (i - 4 ≥ 4) from by omega, decide_False,
        Bool.false_and, decide_eq_true_eq]
  · simp [show ¬ (i < 8) from by omega]

/-- The second half of the loop body, applied after the first-nibble
update, depends on `(c, b)` only through `c ^^^ b`. -/
theorem crcStep2_after_first (c b t : Nat) :
    crcStep2 (((c <<< 4) ^^^ t) % 256) b = crcStep2 ((((c ^^^ b) <<< 4) ^^^ t) % 256) 0 := by
  unfold crcStep2
  rw [show (0xF : Nat) = 15 from rfl, lowNibble_index_eq c b t]
  exact highPart_eq c b t _

/-- The full table-driven per-byte update depends on the running value and
the data byte only through their XOR. -/
theorem crcStep_xor (c b : Nat) : crcStep c b = crcStep (c ^^^ b) 0 := by
  unfold crcStep
  rw [Nat.zero_xor, Nat.xor_comm b c]
  exact crcStep2_after_first c b _

/-- The reference bitwise per-byte update depends on the running value and
the data byte only through their XOR. -/
theorem refCrcStep_xor (c b : Nat) : refCrcStep c b = refCrcStep (c ^^^ b) 0 := by
  unfold refCrcStep
  rw [Nat.xor_zero]

set_option maxRecDepth 10000 in
/-- Exhaustive check of the 256 residual cases: on every byte-sized XOR
residue, the table-driven update agrees with the reference bitwise
CRC-8/0x31 update. -/
theorem crcStep_eq_refCrcStep_zero : ∀ x < 256, crcStep x 0 = refCrcStep x 0 := by
  decide

/-- For every byte and every running-CRC state, the table-driven per-byte
update of `cSHT_3x::crc` agrees with the reference bitwise CRC-8/0x31
update. -/
theorem crcStep_eq_refCrcStep : ∀ c < 256, ∀ b < 256, crcStep c b = refCrcStep c b := by
  intro c hc b hb
  have hx8 : c ^^^ b < 2 ^ 8 := Nat.xor_lt_two_pow (by omega) (by omega)
  have hx : c ^^^ b < 256 := by omega
  rw [crcStep_xor, refCrcStep_xor]
  exact crcStep_eq_refCrcStep_zero _ hx

/-- The table-driven per-byte update keeps the running CRC below 256. -/
theorem crcStep_lt (c b : Nat) : crcStep c b < 256 := by
  unfold crcStep crcStep2
  exact Nat.mod_lt _ (by norm_num)

/-- The table-driven CRC and the reference bitwise CRC-8/0x31 agree on every
byte list, from every 8-bit initial running value. -/
theorem crc_eq_refCrc : ∀ (l : List Nat) (c : Nat), c < 256 → (∀ b ∈ l, b < 256) →
    crc l c = refCrc l c := by
  intro l
  induction l with
  | nil => intro c _ _; rfl
  | cons b t ih =>
      intro c hc hl
      have hb : b < 256 := hl b (List.mem_cons_self b t)
      show crc t (crcStep c b) = refCrc t (refCrcStep c b)
      rw [← crcStep_eq_refCrcStep c hc b hb]
      exact ih (crcStep c b) (crcStep_lt c b) (fun x hx => hl x (List.mem_cons_of_mem b hx))

/-- Claim C1: the checksum function `crc`, applied with initial running
value 0xFF, equals the reference CRC-8 with polynomial 0x31 and init 0xFF
on every byte sequence; in particular its outputs over 2-byte groups match
the reference for all 256 byte values and all 256 initial CRC states. -/
theorem crc_matches_crc8_poly31 :
    (∀ l : List Nat, (∀ b ∈ l, b < 256) → crc l 0xFF = refCrc l 0xFF) ∧
    (∀ b1 < 256, ∀ b2 < 256, ∀ c < 256, crc [b1, b2] c = refCrc [b1, b2] c) := by
  constructor
  · intro l hl
    exact crc_eq_refCrc l 0xFF (by norm_num) hl
  · intro b1 h1 b2 h2 c hc
    refine crc_eq_refCrc [b1, b2] c hc ?_
    intro x hx
    rcases List.mem_cons.mp hx with rfl | hx
    · exact h1
    · rcases List.mem_cons.mp hx with rfl | hx
      · exact h2
      · cases hx

/-- Witness for C1 at the datasheet test vector 0xBEEF, whose CRC-8/0x31
checksum is 0x92. -/
theorem crc_matches_crc8_poly31_witness :
    crc [0xBE, 0xEF] 0xFF = refCrc [0xBE, 0xEF] 0xFF ∧ crc [0xBE, 0xEF] 0xFF = 0x92 :=
  ⟨crc_matches_crc8_poly31.1 [0xBE, 0xEF] (by decide), by decide⟩

/-- Claim C8: the conversion functions are pure linear maps
`rawTtoCelsius(frac) = -45 + 175 * frac / 65535` and
`rawRHtoPercent(frac) = 100 * frac / 65535`; in particular
`rawTtoCelsius 0 = -45`, `rawTtoCelsius 65535 = 130`,
`rawRHtoPercent 0 = 0`, `rawRHtoPercent 65535 = 100`, and both are
strictly monotone in the raw fraction. -/
theorem conversions_linear_monotone :
    (∀ frac : Nat, rawTtoCelsius frac = -45 + 175 * frac / 65535) ∧
    (∀ frac : Nat, rawRHtoPercent frac = 100 * frac / 65535) ∧
    rawTtoCelsius 0 = -45 ∧ rawTtoCelsius 65535 = 130 ∧
    rawRHtoPercent 0 = 0 ∧ rawRHtoPercent 65535 = 100 ∧
    (∀ a b : Nat, a < b → rawTtoCelsius a < rawTtoCelsius b) ∧
    (∀ a b : Nat, a < b → rawRHtoPercent a < rawRHtoPercent b) := by
  refine ⟨fun _ => rfl, fun _ => rfl, by norm_num [rawTtoCelsius],
    by norm_num [rawTtoCelsius], by norm_num [rawRHtoPercent],
    by norm_num [rawRHtoPercent], ?_, ?_⟩
  · intro a b hab
    have h : (a : ℚ) < b := by exact_mod_cast hab
    unfold rawTtoCelsius
    linarith
  · intro a b hab
    have h : (a : ℚ) < b := by exact_mod_cast hab
    unfold rawRHtoPercent
    linarith

/-- Witness for C8: strict monotonicity applied at 0 < 1. -/
theorem conversions_linear_monotone_witness :
    rawTtoCelsius 0 < rawTtoCelsius 1 ∧ rawRHtoPercent 0 < rawRHtoPercent 1 :=
  ⟨conversions_linear_monotone.2.2.2.2.2.2.1 0 1 (by norm_num),
   conversions_linear_monotone.2.2.2.2.2.2.2 0 1 (by norm_num)⟩

/-- Claim C6: with the skip-integrity-check flag set, the checker is
bypassed for every response: a 6-byte payload with a corrupted first
checksum byte is accepted with the decoded fractions, while with the flag
clear the same payload fails; likewise a corrupted 3-byte status response
decodes to a valid status with the flag set and to the invalid status with
the flag clear. -/
theorem skip_integrity_flag_bypasses_checker (buf : Buf6) (sbuf : Buf3)
    (h : crc [buf.b0, buf.b1] 0xFF ≠ buf.b2)
    (hs : crc [sbuf.b0, sbuf.b1] 0xFF ≠ sbuf.b2) :
    processResultsRaw true buf =
      (true, (buf.b0 <<< 8) ||| buf.b1, (buf.b3 <<< 8) ||| buf.b4) ∧
    (processResultsRaw false buf).1 = false ∧
    getStatus true (some sbuf) true = Status_t.valid ((sbuf.b0 <<< 8) ||| sbuf.b1) ∧
    getStatus true (some sbuf) false = Status_t.invalid := by
  refine ⟨by simp [processResultsRaw], by simp [processResultsRaw, h],
    by simp [getStatus], by simp [getStatus, hs]⟩

/-- Witness for C6 at the all-zero payload, whose correct group checksum is
0x81 so the transmitted 0 bytes are corrupted checksums. -/
theorem skip_integrity_flag_bypasses_checker_witness :
    processResultsRaw true ⟨0, 0, 0, 0, 0, 0⟩ =
      (true, (0 <<< 8) ||| 0, (0 <<< 8) ||| 0) ∧
    (processResultsRaw false ⟨0, 0, 0, 0, 0, 0⟩).1 = false :=
  ⟨(skip_integrity_flag_bypasses_checker ⟨0, 0, 0, 0, 0, 0⟩ ⟨0, 0, 0⟩
      (by decide) (by decide)).1,
   (skip_integrity_flag_bypasses_checker ⟨0, 0, 0, 0, 0, 0⟩ ⟨0, 0, 0⟩
      (by decide) (by decide)).2.1⟩

/-- Claim C10: `processResultsRaw` assigns the big-endian-decoded
temperature fraction (bytes 0–1) and humidity fraction (bytes 3–4) to its
output parameters before the CRC comparison: on every 6-byte buffer whose
checksum bytes mismatch (with integrity checking enabled) it returns false
while the outputs hold the decoded, unvalidated fractions — and the raw
single-shot path propagates those decoded values alongside its false
result. -/
theorem processResultsRaw_decodes_before_crc (buf : Buf6)
    (h : crc [buf.b0, buf.b1] 0xFF ≠ buf.b2 ∨ crc [buf.b3, buf.b4] 0xFF ≠ buf.b5)
    (r : Repeatability)
    (hr : getCommand Periodicity.Single r ClockStretching.Disabled ≠ Command.Error)
    (t0 rh0 : Nat) :
    processResultsRaw false buf =
      (false, (buf.b0 <<< 8) ||| buf.b1, (buf.b3 <<< 8) ||| buf.b4) ∧
    getTemperatureHumidityRaw r true (some buf) false t0 rh0 =
      ⟨false, (buf.b0 <<< 8) ||| buf.b1, (buf.b3 <<< 8) ||| buf.b4,
       [BusEvent.write (getCommand Periodicity.Single r ClockStretching.Disabled),
        BusEvent.delayMs 20, BusEvent.read 6]⟩ := by
  have hp : processResultsRaw false buf =
      (false, (buf.b0 <<< 8) ||| buf.b1, (buf.b3 <<< 8) ||| buf.b4) := by
    rcases h with h | h <;> simp [processResultsRaw, h]
  refine ⟨hp, ?_⟩
  simp [getTemperatureHumidityRaw, hr, hp]

/-- Witness for C10 at an all-zero payload with corrupted checksums, high
repeatability. -/
theorem processResultsRaw_decodes_before_crc_witness :
    processResultsRaw false ⟨0, 0, 0, 0, 0, 0⟩ =
      (false, (0 <<< 8) ||| 0, (0 <<< 8) ||| 0) ∧
    getTemperatureHumidityRaw Repeatability.High true (some ⟨0, 0, 0, 0, 0, 0⟩) false 3 4 =
      ⟨false, (0 <<< 8) ||| 0, (0 <<< 8) ||| 0,
       [BusEvent.write (getCommand Periodicity.Single Repeatability.High
          ClockStretching.Disabled), BusEvent.delayMs 20, BusEvent.read 6]⟩ :=
  processResultsRaw_decodes_before_crc ⟨0, 0, 0, 0, 0, 0⟩ (Or.inl (by decide))
    Repeatability.High (by decide) 3 4

/-- Claim C5: `getStatus` returns the decoded big-endian status word as a
valid `Status_t` exactly when the write succeeds, the 3-byte read
succeeds, and (unless integrity checking is disabled) the CRC of the first
two bytes equals the third; on any failure it returns the
explicitly-invalid `Status_t`, which differs from every valid status,
including the all-zero one. -/
theorem getStatus_contract (writeOk : Bool) (readOut : Option Buf3) (noCrc : Bool) :
    (∀ buf : Buf3, writeOk = true → readOut = some buf →
        (noCrc = true ∨ crc [buf.b0, buf.b1] 0xFF = buf.b2) →
        getStatus writeOk readOut noCrc = Status_t.valid ((buf.b0 <<< 8) ||| buf.b1)) ∧
    ((writeOk = false ∨ readOut = none ∨
      (∃ buf : Buf3, readOut = some buf ∧ noCrc = false ∧
        crc [buf.b0, buf.b1] 0xFF ≠ buf.b2)) →
        getStatus writeOk readOut noCrc = Status_t.invalid) ∧
    (∀ w : Nat, Status_t.invalid ≠ Status_t.valid w) := by
  refine ⟨?_, ?_, fun w h => Status_t.noConfusion h⟩
  · intro buf hw hr hcrc
    subst hw
    subst hr
    rcases hcrc with h | h <;> simp [getStatus, h]
  · intro h
    rcases h with h | h | ⟨buf, hr, hn, hc⟩
    · subst h
      simp [getStatus]
    · subst h
      cases writeOk <;> simp [getStatus]
    · subst hr
      subst hn
      cases writeOk <;> simp [getStatus, hc]

/-- Witness for C5: a read of bytes 0x00 0x00 with the correct checksum
0x81 decodes to the valid all-zero status; a failed write yields the
invalid status. -/
theorem getStatus_contract_witness :
    getStatus true (some ⟨0, 0, 0x81⟩) false = Status_t.valid ((0 <<< 8) ||| 0) ∧
    getStatus false none false = Status_t.invalid :=
  ⟨(getStatus_contract true (some ⟨0, 0, 0x81⟩) false).1 ⟨0, 0, 0x81⟩ rfl rfl
      (Or.inr (by decide)),
   (getStatus_contract false none false).2.1 (Or.inl rfl)⟩

/-- Claim C9: the low-level bus helpers validate their parameters before
touching the bus: `readResponse` returns false with no bus request when
the buffer is null, the length exceeds 32, or the address is negative, and
`writeCommand` returns false with no transaction when the address is
negative. -/
theorem bus_helpers_validate_parameters (addr : Int) (c : Command) (endResult : Nat)
    (bufNull : Bool) (nBuf nReadFrom nAvail : Nat) :
    ((bufNull = true ∨ nBuf > 32 ∨ addr < 0) →
        readResponse addr bufNull nBuf nReadFrom nAvail = (false, [])) ∧
    (addr < 0 → writeCommand addr c endResult = (false, [])) := by
  constructor
  · intro h
    simp [readResponse, h]
  · intro h
    simp [writeCommand, h]

/-- Witness for C9 at address −1. -/
theorem bus_helpers_validate_parameters_witness :
    readResponse (-1) false 6 6 6 = (false, []) ∧
    writeCommand (-1) Command.Fetch 0 = (false, []) :=
  ⟨(bus_helpers_validate_parameters (-1) Command.Fetch 0 false 6 6 6).1
      (Or.inr (Or.inr (by norm_num))),
   (bus_helpers_validate_parameters (-1) Command.Fetch 0 false 6 6 6).2 (by norm_num)⟩

/-- Claim C4: `startPeriodicMeasurement` first computes the expected
interval from the command's periodicity; if it is 0 it returns 0 with zero
bus writes; otherwise it writes `Break` then the periodic-start command,
returning the interval when both writes succeed and 0 when either
fails. -/
theorem startPeriodicMeasurement_contract (c : Command) (w1 w2 : Bool) :
    (PeriodicityToMillis (getPeriodicity c) = 0 →
        startPeriodicMeasurement c w1 w2 = (0, [])) ∧
    (PeriodicityToMillis (getPeriodicity c) ≠ 0 →
        (w1 = false → startPeriodicMeasurement c w1 w2 = (0, [Command.Break])) ∧
        (w1 = true → w2 = false →
            startPeriodicMeasurement c w1 w2 = (0, [Command.Break, c])) ∧
        (w1 = true → w2 = true →
            startPeriodicMeasurement c w1 w2 =
              (PeriodicityToMillis (getPeriodicity c), [Command.Break, c]))) := by
  constructor
  · intro h
    simp [startPeriodicMeasurement, h]
  · intro h
    refine ⟨?_, ?_, ?_⟩
    · intro h1
      simp [startPeriodicMeasurement, h, h1]
    · intro h1 h2
      simp [startPeriodicMeasurement, h, h1, h2]
    · intro h1 h2
      simp [startPeriodicMeasurement, h, h1, h2]

/-- Witness for C4: a high-repeatability 1 Hz periodic start with both
writes succeeding returns the 1000 ms interval after writing `Break` and
the start command; a single-shot command returns 0 with no writes. -/
theorem startPeriodicMeasurement_contract_witness :
    startPeriodicMeasurement
        (Command.PeriodicStart Repeatability.High Periodicity.HzOne) true true =
      (1000, [Command.Break,
        Command.PeriodicStart Repeatability.High Periodicity.HzOne]) ∧
    startPeriodicMeasurement
        (Command.SingleShot Repeatability.High ClockStretching.Disabled) true true =
      (0, []) := by
  constructor
  · have h := (startPeriodicMeasurement_contract
        (Command.PeriodicStart Repeatability.High Periodicity.HzOne) true true).2
        (by decide) |>.2.2 rfl rfl
    simpa using h
  · exact (startPeriodicMeasurement_contract
        (Command.SingleShot Repeatability.High ClockStretching.Disabled) true true).1
        (by decide)

/-- Claim C3: for every repeatability whose single-shot encoding (with
clock stretching disabled) is the `Error` sentinel,
`getTemperatureHumidityRaw` returns false without any bus write, delay or
read, leaving its output parameters untouched. -/
theorem config_error_fails_without_bus_io (r : Repeatability)
    (h : getCommand Periodicity.Single r ClockStretching.Disabled = Command.Error) :
    ∀ (writeOk : Bool) (readOut : Option Buf6) (noCrc : Bool) (t0 rh0 : Nat),
      getTemperatureHumidityRaw r writeOk readOut noCrc t0 rh0 = ⟨false, t0, rh0, []⟩ := by
  intro writeOk readOut noCrc t0 rh0
  simp [getTemperatureHumidityRaw, h]

/-- Witness for C3 at the unmapped repeatability value. -/
theorem config_error_fails_without_bus_io_witness :
    getTemperatureHumidityRaw Repeatability.NA true (some ⟨0, 0, 0, 0, 0, 0⟩) false 3 4 =
      ⟨false, 3, 4, []⟩ :=
  config_error_fails_without_bus_io Repeatability.NA rfl true
    (some ⟨0, 0, 0, 0, 0, 0⟩) false 3 4

/-- Claim C7: `getTemperatureHumidity` returns false with both outputs set
to the not-a-number sentinel whenever any stage (encoding, command write,
6-byte read, validation) fails, and on all-stage success returns true with
`rawTtoCelsius` of the temperature fraction and `rawRHtoPercent` of the
humidity fraction. -/
theorem getTemperatureHumidity_contract (t0 rh0 : FloatVal) (r : Repeatability)
    (writeOk : Bool) (readOut : Option Buf6) (noCrc : Bool) (tf0 rf0 : Nat) :
    ((getCommand Periodicity.Single r ClockStretching.Disabled = Command.Error ∨
      writeOk = false ∨ readOut = none ∨
      (∃ buf : Buf6, readOut = some buf ∧ noCrc = false ∧
        (crc [buf.b0, buf.b1] 0xFF ≠ buf.b2 ∨ crc [buf.b3, buf.b4] 0xFF ≠ buf.b5))) →
        getTemperatureHumidity t0 rh0 r writeOk readOut noCrc tf0 rf0 =
          (false, FloatVal.nan, FloatVal.nan)) ∧
    (∀ buf : Buf6,
        getCommand Periodicity.Single r ClockStretching.Disabled ≠ Command.Error →
        writeOk = true → readOut = some buf →
        (noCrc = true ∨ (crc [buf.b0, buf.b1] 0xFF = buf.b2 ∧
          crc [buf.b3, buf.b4] 0xFF = buf.b5)) →
        getTemperatureHumidity t0 rh0 r writeOk readOut noCrc tf0 rf0 =
          (true, FloatVal.val (rawTtoCelsius ((buf.b0 <<< 8) ||| buf.b1)),
           FloatVal.val (rawRHtoPercent ((buf.b3 <<< 8) ||| buf.b4)))) := by
  constructor
  · intro h
    rcases h with h | h | h | ⟨buf, hr, hn, hc⟩
    · simp [getTemperatureHumidity, getTemperatureHumidityRaw, h]
    · subst h
      by_cases hc : getCommand Periodicity.Single r ClockStretching.Disabled = Command.Error <;>
        simp [getTemperatureHumidity, getTemperatureHumidityRaw, hc]
    · subst h
      by_cases hc : getCommand Periodicity.Single r ClockStretching.Disabled = Command.Error <;>
        cases writeOk <;>
          simp [getTemperatureHumidity, getTemperatureHumidityRaw, hc]
    · subst hr
      subst hn
      by_cases hcm : getCommand Periodicity.Single r ClockStretching.Disabled = Command.Error
      · simp [getTemperatureHumidity, getTemperatureHumidityRaw, hcm]
      · cases writeOk
        · simp [getTemperatureHumidity, getTemperatureHumidityRaw, hcm]
        · rcases hc with h | h <;>
            simp [getTemperatureHumidity, getTemperatureHumidityRaw, processResultsRaw, hcm, h]
  · intro buf hcm hw hr hcrc
    subst hw
    subst hr
    rcases hcrc with h | ⟨h1, h2⟩
    · simp [getTemperatureHumidity, getTemperatureHumidityRaw, processResultsRaw, hcm, h]
    · simp [getTemperatureHumidity, getTemperatureHumidityRaw, processResultsRaw, hcm, h1, h2]

/-- Witness for C7: a failed write yields the not-a-number pair; a
successful read of the all-zero payload with correct checksums 0x81
converts to −45 °C and 0 %. -/
theorem getTemperatureHumidity_contract_witness :
    getTemperatureHumidity (FloatVal.val 1) (FloatVal.val 2) Repeatability.High
        false none false 0 0 = (false, FloatVal.nan, FloatVal.nan) ∧
    getTemperatureHumidity (FloatVal.val 1) (FloatVal.val 2) Repeatability.High
        true (some ⟨0, 0, 0x81, 0, 0, 0x81⟩) false 0 0 =
      (true, FloatVal.val (rawTtoCelsius ((0 <<< 8) ||| 0)),
       FloatVal.val (rawRHtoPercent ((0 <<< 8) ||| 0))) :=
  ⟨(getTemperatureHumidity_contract (FloatVal.val 1) (FloatVal.val 2) Repeatability.High
      false none false 0 0).1 (Or.inr (Or.inl rfl)),
   (getTemperatureHumidity_contract (FloatVal.val 1) (FloatVal.val 2) Repeatability.High
      true (some ⟨0, 0, 0x81, 0, 0, 0x81⟩) false 0 0).2 ⟨0, 0, 0x81, 0, 0, 0x81⟩
      (by decide) rfl rfl (Or.inr ⟨by decide, by decide⟩)⟩

/-- Counterexample to C2 as stated: when the Fetch write fails,
`getPeriodicMeasurement` returns false but leaves both by-reference float
outputs at their prior values (here 7), not at the not-a-number
sentinel. -/
theorem getPeriodicMeasurement_no_nan_counterexample :
    getPeriodicMeasurement (FloatVal.val 7) (FloatVal.val 7) false none false 0 0 =
      (false, FloatVal.val 7, FloatVal.val 7) ∧
    FloatVal.val (7 : ℚ) ≠ FloatVal.nan :=
  ⟨rfl, fun h => FloatVal.noConfusion h⟩

/-- Claim C2 (amended): on every execution in which any stage of
`getPeriodicMeasurement` fails (Fetch write, 6-byte read, or validation),
it returns false — but, unlike `getTemperatureHumidity`, it leaves both
output parameters unchanged instead of storing the not-a-number
sentinel. -/
theorem getPeriodicMeasurement_failure_keeps_outputs (t0 rh0 : FloatVal)
    (writeOk : Bool) (readOut : Option Buf6) (noCrc : Bool) (tf0 rf0 : Nat)
    (h : (getPeriodicMeasurementRaw writeOk readOut noCrc tf0 rf0).1 = false) :
    getPeriodicMeasurement t0 rh0 writeOk readOut noCrc tf0 rf0 = (false, t0, rh0) := by
  simp [getPeriodicMeasurement, h]

/-- Witness for the amended C2 at a failed Fetch write. -/
theorem getPeriodicMeasurement_failure_keeps_outputs_witness :
    getPeriodicMeasurement (FloatVal.val 3) FloatVal.nan false none true 5 6 =
      (false, FloatVal.val 3, FloatVal.nan) :=
  getPeriodicMeasurement_failure_keeps_outputs (FloatVal.val 3) FloatVal.nan
    false none true 5 6 rfl

end cSHT_3x
